import Mathlib

/-!
Verification development for the column-matching engine (Go backend,
`backend-go/internal`).  The Go sources are shallowly embedded:

* Go `float64` arithmetic is modelled exactly over `ℚ` (the usual
  idealisation; the code's arithmetic is plain +, *, /, min, max, abs).
* The transcendental / platform float operations that cannot be expressed
  exactly over `ℚ` (`math.Log2`, `math.Sqrt`, `strconv.ParseFloat`) and the
  `FormatNormalizer` component (built on Go `time.Parse`) are abstracted as
  an explicit environment `Env`; every theorem quantifies over it, so the
  results hold for any realisation of those operations.
* Go strings are Lean `String`s; the handful of `strings.*` helpers the
  code uses are re-implemented structurally below (ASCII case folding, as
  exercised by the code on column names).
* Go maps are modelled as association lists (lookup/upsert); where the code
  iterates a map, the iteration is order-independent except where noted in
  a comment (the source's own design notes flag those spots).
* Mutexes, logging, timestamps and the async `save()` persistence calls are
  not modelled: they do not affect the values computed.
-/

namespace ColMatch

/-! ### Go string helpers (`strings`, `unicode` — ASCII fragment used by the code) -/

/-- ASCII uppercase test (stands for `unicode.IsUpper` on the ASCII column
names the engine handles). -/
def isUpperChar (c : Char) : Bool := 'A' ≤ c && c ≤ 'Z'

/-- ASCII lowercasing of one character (stands for `unicode.ToLower` /
`strings.ToLower` per character). -/
def lowerChar (c : Char) : Char :=
  if isUpperChar c then Char.ofNat (c.toNat + 32) else c

/-- `strings.ToLower`. -/
def sToLower (s : String) : String := ⟨s.data.map lowerChar⟩

/-- `strings.ReplaceAll s (String c) (String c2)` for one-character patterns. -/
def sReplaceChar (s : String) (c c2 : Char) : String :=
  ⟨s.data.map (fun d => if d = c then c2 else d)⟩

/-- `strings.ReplaceAll s (String c) ""` (delete a character). -/
def sRemoveChar (s : String) (c : Char) : String :=
  ⟨s.data.filter (fun d => ¬ d = c)⟩

/-- Whitespace test (stands for `unicode.IsSpace`; the code only ever
introduces plain spaces before splitting). -/
def isSpaceChar (c : Char) : Bool := c = ' ' || c = '\t' || c = '\n' || c = '\r'

/-- Helper for `strings.Fields`: split a character list on whitespace. -/
def fieldsAux : List Char → List Char → List String
  | [], acc => if acc = [] then [] else [⟨acc.reverse⟩]
  | c :: rest, acc =>
    if isSpaceChar c then
      (if acc = [] then [] else [(⟨acc.reverse⟩ : String)]) ++ fieldsAux rest []
    else fieldsAux rest (c :: acc)

/-- `strings.Fields`. -/
def sFields (s : String) : List String := fieldsAux s.data []

/-- Prefix test on character lists (for `strings.HasPrefix`). -/
def listStartsWith : List Char → List Char → Bool
  | _, [] => true
  | [], _ :: _ => false
  | c :: rest, p :: ps => c = p && listStartsWith rest ps

/-- `strings.HasPrefix`. -/
def sHasPrefix (s p : String) : Bool := listStartsWith s.data p.data

/-- `strings.HasSuffix`. -/
def sHasSuffix (s p : String) : Bool := listStartsWith s.data.reverse p.data.reverse

/-- `strings.Contains` (substring test). -/
def listContainsSub : List Char → List Char → Bool
  | l, needle =>
    match l with
    | [] => listStartsWith [] needle
    | _ :: rest => listStartsWith l needle || listContainsSub rest needle

/-- `strings.Contains`. -/
def sContains (s sub : String) : Bool := listContainsSub s.data sub.data

/-- UTF-8 byte size of one character (Go `len` on strings counts bytes). -/
def charUtf8Len (c : Char) : ℕ :=
  if c.toNat < 0x80 then 1
  else if c.toNat < 0x800 then 2
  else if c.toNat < 0x10000 then 3
  else 4

/-- Go `len(s)` — the UTF-8 byte length. -/
def sByteLen (s : String) : ℕ := (s.data.map charUtf8Len).sum

/-- `strings.EqualFold`, as used on already-lowercased ASCII names. -/
def sEqualFold (a b : String) : Bool := sToLower a = sToLower b

/-! ### A small regular-expression engine

`enhanced_similarity.go` compiles nine `regexp` patterns.  We embed them as
values of a regular-expression datatype with Brzozowski-derivative matching
(language-equivalent to Go's RE2 on these regexes, which use no captures). -/

inductive Rx where
  | emp : Rx
  | eps : Rx
  | cls (p : Char → Bool) : Rx
  | cat (a b : Rx) : Rx
  | alt (a b : Rx) : Rx
  | star (a : Rx) : Rx

def Rx.nullable : Rx → Bool
  | .emp => false
  | .eps => true
  | .cls _ => false
  | .cat a b => a.nullable && b.nullable
  | .alt a b => a.nullable || b.nullable
  | .star _ => true

def Rx.deriv : Rx → Char → Rx
  | .emp, _ => .emp
  | .eps, _ => .emp
  | .cls p, c => if p c then .eps else .emp
  | .cat a b, c =>
    if a.nullable then .alt (.cat (a.deriv c) b) (b.deriv c)
    else .cat (a.deriv c) b
  | .alt a b, c => .alt (a.deriv c) (b.deriv c)
  | .star a, c => .cat (a.deriv c) (.star a)

/-- Full-string match of a regex against a string. -/
def rxMatch (r : Rx) (s : String) : Bool :=
  (s.data.foldl Rx.deriv r).nullable

def Rx.chr (c : Char) : Rx := .cls (fun d => d = c)

def Rx.oneOf (cs : List Char) : Rx := .cls (fun d => cs.contains d)

def Rx.plus (r : Rx) : Rx := .cat r (.star r)

def Rx.opt (r : Rx) : Rx := .alt .eps r

/-- `r` repeated exactly `n` times. -/
def Rx.pow (r : Rx) : ℕ → Rx
  | 0 => .eps
  | n + 1 => .cat r (r.pow n)

/-- `r` repeated at most `n` times. -/
def Rx.upTo (r : Rx) : ℕ → Rx
  | 0 => .eps
  | n + 1 => .cat r.opt (r.upTo n)

def rxDigit : Rx := .cls (fun c => '0' ≤ c && c ≤ '9')

def rxAlpha : Rx := .cls (fun c => ('a' ≤ c && c ≤ 'z') || ('A' ≤ c && c ≤ 'Z'))

def rxAlnum : Rx := .cls (fun c => ('a' ≤ c && c ≤ 'z') || ('A' ≤ c && c ≤ 'Z') || ('0' ≤ c && c ≤ '9'))

def rxHex : Rx := .cls (fun c => ('0' ≤ c && c ≤ '9') || ('a' ≤ c && c ≤ 'f') || ('A' ≤ c && c ≤ 'F'))

def rxWs : Rx := .cls isSpaceChar

def rxAny : Rx := .cls (fun _ => true)

/-- `^[a-zA-Z0-9._%+-]+@[a-zA-Z0-9.-]+\.[a-zA-Z]\x7b2,\x7d$` -/
def rxEmail : Rx :=
  .cat (.plus (.alt rxAlnum (Rx.oneOf ['.', '_', '%', '+', '-'])))
    (.cat (Rx.chr '@')
      (.cat (.plus (.alt rxAlnum (Rx.oneOf ['.', '-'])))
        (.cat (Rx.chr '.') (.cat rxAlpha (.plus rxAlpha)))))

/-- `^[\+]?[(]?[0-9]\x7b1,4\x7d[)]?[-\s\./0-9]*$` -/
def rxPhone : Rx :=
  .cat (Rx.opt (Rx.chr '+'))
    (.cat (Rx.opt (Rx.chr '('))
      (.cat (.cat rxDigit (rxDigit.upTo 3))
        (.cat (Rx.opt (Rx.chr ')'))
          (.star (.alt (Rx.oneOf ['-', '.', '/']) (.alt rxWs rxDigit))))))

/-- `^[0-9a-fA-F]\x7b8\x7d-...\x7b4\x7d-...\x7b4\x7d-...\x7b4\x7d-...\x7b12\x7d$` -/
def rxUuid : Rx :=
  .cat (rxHex.pow 8) (.cat (Rx.chr '-')
    (.cat (rxHex.pow 4) (.cat (Rx.chr '-')
      (.cat (rxHex.pow 4) (.cat (Rx.chr '-')
        (.cat (rxHex.pow 4) (.cat (Rx.chr '-') (rxHex.pow 12))))))))

/-- `^\d\x7b4\x7d-\d\x7b2\x7d-\d\x7b2\x7d$` -/
def rxDateIso : Rx :=
  .cat (rxDigit.pow 4) (.cat (Rx.chr '-') (.cat (rxDigit.pow 2) (.cat (Rx.chr '-') (rxDigit.pow 2))))

/-- `^\d\x7b2\x7d/\d\x7b2\x7d/\d\x7b4\x7d$` -/
def rxDateUs : Rx :=
  .cat (rxDigit.pow 2) (.cat (Rx.chr '/') (.cat (rxDigit.pow 2) (.cat (Rx.chr '/') (rxDigit.pow 4))))

/-- One octet of the IPv4 pattern: `25[0-5]|2[0-4][0-9]|[01]?[0-9][0-9]?`. -/
def rxIpOctet : Rx :=
  .alt (.cat (Rx.chr '2') (.cat (Rx.chr '5') (Rx.oneOf ['0', '1', '2', '3', '4', '5'])))
    (.alt (.cat (Rx.chr '2') (.cat (Rx.oneOf ['0', '1', '2', '3', '4']) rxDigit))
      (.cat (Rx.opt (Rx.oneOf ['0', '1'])) (.cat rxDigit (Rx.opt rxDigit))))

/-- `^(?:(?:25[0-5]|...)\.)\x7b3\x7d(?:25[0-5]|...)$` -/
def rxIp : Rx :=
  .cat ((Rx.cat rxIpOctet (Rx.chr '.')).pow 3) rxIpOctet

/-- `^https?://` — unanchored at the right, so `MatchString` is a prefix
test; we complete it with `.*`. -/
def rxUrl : Rx :=
  .cat (Rx.chr 'h') (.cat (Rx.chr 't') (.cat (Rx.chr 't') (.cat (Rx.chr 'p')
    (.cat (Rx.opt (Rx.chr 's'))
      (.cat (Rx.chr ':') (.cat (Rx.chr '/') (.cat (Rx.chr '/') (.star rxAny))))))))

/-- The currency-symbol class as it literally appears in the (mojibake-
encoded) source: `$` plus the bytes of the double-encoded `€£¥₹`. -/
def currencyChars : List Char :=
  ['$', Char.ofNat 0xE2, Char.ofNat 0x201A, Char.ofNat 0xAC, Char.ofNat 0xC2,
   Char.ofNat 0x141, Char.ofNat 0x104, Char.ofNat 0x105]

/-- `^[$...]?\s*\d+([,.]\d\x7b2\x7d)?$` -/
def rxCurrency : Rx :=
  .cat (Rx.opt (Rx.oneOf currencyChars))
    (.cat (.star rxWs)
      (.cat (.plus rxDigit)
        (Rx.opt (.cat (Rx.oneOf [',', '.']) (rxDigit.pow 2)))))

/-- `^\d\x7b5\x7d(-\d\x7b4\x7d)?$` -/
def rxZipcode : Rx :=
  .cat (rxDigit.pow 5) (Rx.opt (.cat (Rx.chr '-') (rxDigit.pow 4)))

/-- `buildPatternMap` (enhanced_similarity.go).  The Go value is a map and
its iteration order is unspecified; we fix the source-literal order (the
spec's own design notes flag the map-order nondeterminism as a defect). -/
def buildPatternMap : List (String × Rx) :=
  [("email", rxEmail), ("phone", rxPhone), ("uuid", rxUuid),
   ("date_iso", rxDateIso), ("date_us", rxDateUs), ("ip", rxIp),
   ("url", rxUrl), ("currency", rxCurrency), ("zipcode", rxZipcode)]

/-! ### `state.go` — the dataframe and numeric-column detection -/

structure DataFrame where
  headers : List String
  rows : List (List String)

/-- `isNumericString` (state.go), tracking the byte index and dot count. -/
def isNumericAux : List Char → ℕ → ℕ → Bool
  | [], _, _ => true
  | c :: rest, i, dots =>
    if c = '-' && i = 0 then isNumericAux rest (i + 1) dots
    else if c = '.' then
      (if 1 < dots + 1 then false else isNumericAux rest (i + 1) (dots + 1))
    else if c < '0' || '9' < c then false
    else isNumericAux rest (i + 1) dots

def isNumericString (s : String) : Bool :=
  if s = "" then false else isNumericAux s.data 0 0

/-- `DataFrame.GetNumericColumnIndices` as a membership predicate: the Go
function returns `nil` when there are no rows (every lookup false) and
otherwise a map holding exactly the header indices whose first
`min 20 |rows|` values are all empty-or-numeric. -/
def getNumericColumnIndices (df : DataFrame) (colIdx : ℕ) : Bool :=
  if df.rows = [] then false
  else
    let checkRows := if df.rows.length < 20 then df.rows.length else 20
    colIdx < df.headers.length &&
      (df.rows.take checkRows).all (fun row =>
        if row.length ≤ colIdx then true
        else
          let val := row.getD colIdx ""
          val = "" || isNumericString val)

/-! ### The environment of float-level / external operations -/

/-- Operations of the Go code that have no exact `ℚ` counterpart, passed as
an explicit parameter: `math.Log2`, `math.Sqrt`, `strconv.ParseFloat`
(returning `none` on parse failure), and the `FormatNormalizer` component
(`DetectFormat` / `NormalizeValue`, format_normalizer.go, built on Go
`time.Parse`).  All theorems are quantified over this environment. -/
structure Env where
  log2 : ℚ → ℚ
  sqrt : ℚ → ℚ
  parseFloat : String → Option ℚ
  detectFormat : String → String
  normalizeValue : String → String

/-! ### `data_quality.go` — DataQualityProfiler -/

structure DataQualityProfile where
  columnName : String
  totalRows : ℕ
  nonNullRows : ℕ
  nullRate : ℚ
  distinctCount : ℕ
  uniquenessRatio : ℚ
  entropy : ℚ
  isPrimaryKey : Bool
  qualityScore : ℚ
deriving Inhabited

/-- Null sentinels of `ProfileColumn`. -/
def isNullSentinel (v : String) : Bool := v = "" || v = "null" || v = "NULL" || v = "None"

/-- The non-null values of a column (rows too short are skipped, as in the
Go loop). -/
def nonNullValues (df : DataFrame) (colIdx : ℕ) : List String :=
  df.rows.filterMap (fun row =>
    if row.length ≤ colIdx then none
    else
      let v := row.getD colIdx ""
      if isNullSentinel v then none else some v)

/-- Insertion-ordered distinct elements (Go `map` key set). -/
def distinctList (l : List String) : List String :=
  l.foldl (fun acc v => if acc.contains v then acc else acc ++ [v]) []

/-- `calculateEntropy` (Shannon entropy, via the environment's `log2`).
The Go code iterates the count map; the sum is order-independent. -/
def calculateEntropy (env : Env) (values : List String) (total : ℕ) : ℚ :=
  if total = 0 then 0
  else
    ((distinctList values).map (fun v =>
      let count := values.count v
      if 0 < count then
        let p : ℚ := (count : ℚ) / (total : ℚ); -(p * env.log2 p)
      else 0)).sum

/-- `calculateQualityScore`. -/
def calculateQualityScore (nullRate entropy : ℚ) : ℚ :=
  let score : ℚ := 1
  let score := score * (1 - nullRate)
  let idealEntropy : ℚ := 4
  let entropyPenalty := |entropy - idealEntropy| / 10
  let score := score * max (1/2) (1 - entropyPenalty)
  max 0 (min 1 score)

/-- `ProfileColumn`. -/
def profileColumn (env : Env) (df : DataFrame) (colIdx : ℕ) : DataQualityProfile :=
  let values := nonNullValues df colIdx
  let nonNullCount := values.length
  let totalRows := df.rows.length
  let nullRate : ℚ := if 0 < totalRows then ((totalRows : ℚ) - (nonNullCount : ℚ)) / (totalRows : ℚ) else 0
  let distinctCount := (distinctList values).length
  let uniquenessRatio : ℚ := if 0 < nonNullCount then (distinctCount : ℚ) / (nonNullCount : ℚ) else 0
  let entropy := calculateEntropy env values nonNullCount
  let isPrimaryKey := (95 : ℚ)/100 < uniquenessRatio ∧ nullRate < 5/100
  { columnName := df.headers.getD colIdx ""
    totalRows := totalRows
    nonNullRows := nonNullCount
    nullRate := nullRate
    distinctCount := distinctCount
    uniquenessRatio := uniquenessRatio
    entropy := entropy
    isPrimaryKey := isPrimaryKey
    qualityScore := calculateQualityScore nullRate entropy }

/-- `CompareQuality`. -/
def compareQuality (p1 p2 : DataQualityProfile) : ℚ :=
  if p1.qualityScore < 3/10 ∨ p2.qualityScore < 3/10 then 1/2
  else
    let uniquenessDiff := |p1.uniquenessRatio - p2.uniquenessRatio|
    let uniquenessSim := 1 - uniquenessDiff
    let entropyDiff := |p1.entropy - p2.entropy|
    let entropySim := max 0 (1 - entropyDiff / 10)
    let bothPrimaryKeys : ℚ := if p1.isPrimaryKey && p2.isPrimaryKey then 3/10 else 0
    let similarity := uniquenessSim * (4/10) + entropySim * (3/10) + bothPrimaryKeys + 3/10
    max 0 (min 1 similarity)

/-! ### `normalized_matcher.go` — NormalizedValueMatcher -/

/-- The shared sample size of `CalculateNormalizedMatch`, exactly as the
three sequential statements compute it. -/
def nvmSampleSize (df1 df2 : DataFrame) : ℕ :=
  let sampleSize := 200
  let sampleSize := if df1.rows.length < sampleSize then df1.rows.length else sampleSize
  if df2.rows.length < sampleSize then df2.rows.length else sampleSize

/-- One collection loop of `CalculateNormalizedMatch`: the set of non-empty
normalized values of a column over the first `sampleSize` rows. -/
def normalizedSet (env : Env) (rows : List (List String)) (colIdx sampleSize : ℕ) : List String :=
  distinctList ((rows.take sampleSize).filterMap (fun row =>
    if colIdx < row.length then
      let val := row.getD colIdx ""
      if ¬ val = "" then
        let normalized := env.normalizeValue val
        if ¬ normalized = "" then some normalized else none
      else none
    else none))

/-- `CalculateNormalizedMatch`. -/
def calculateNormalizedMatch (env : Env) (df1 df2 : DataFrame) (col1Idx col2Idx : ℕ) : ℚ :=
  let sampleSize := nvmSampleSize df1 df2
  let normalized1 := normalizedSet env df1.rows col1Idx sampleSize
  let normalized2 := normalizedSet env df2.rows col2Idx sampleSize
  if normalized1.length = 0 ∨ normalized2.length = 0 then 0
  else
    let intersection := (normalized1.filter (fun v => normalized2.contains v)).length
    let union := normalized1.length + normalized2.length - intersection
    if union = 0 then 0
    else (intersection : ℚ) / (union : ℚ)

/-- The format-detection loop of `DetectFormatTransformation`: walks the
sampled rows, remembers the last detected format, stops at the first
non-"text" one. -/
def scanColumnFormat (env : Env) (colIdx : ℕ) : List (List String) → String → String
  | [], acc => acc
  | row :: rest, acc =>
    if colIdx < row.length && ¬ row.getD colIdx "" = "" then
      let f := env.detectFormat (row.getD colIdx "")
      if ¬ f = "text" then f else scanColumnFormat env colIdx rest f
    else scanColumnFormat env colIdx rest acc

/-- `DetectFormatTransformation`.  Note: the Go code sizes *both* loops by
`df1`'s row count and would panic if `df2` is shorter; the embedding clips
to the rows that exist (the claims under study never reach that case). -/
def detectFormatTransformation (env : Env) (df1 df2 : DataFrame) (col1Idx col2Idx : ℕ) :
    Bool × String :=
  let sampleSize := if df1.rows.length < 10 then df1.rows.length else 10
  let format1 := scanColumnFormat env col1Idx (df1.rows.take sampleSize) ""
  let format2 := scanColumnFormat env col2Idx (df2.rows.take sampleSize) ""
  if ¬ format1 = "" ∧ format1 = format2 ∧ ¬ format1 = "text" then
    if 1/2 < calculateNormalizedMatch env df1 df2 col1Idx col2Idx then (true, format1)
    else (false, "")
  else (false, "")

/-- `CalculateCardinalityMatch`. -/
def calculateCardinalityMatch (p1 p2 : DataQualityProfile) : ℚ :=
  if p1.isPrimaryKey && p2.isPrimaryKey then 9/10
  else if ¬ p1.isPrimaryKey = p2.isPrimaryKey then 2/10
  else
    let uniquenessDiff := |p1.uniquenessRatio - p2.uniquenessRatio|
    if uniquenessDiff < 1/10 then 8/10
    else if uniquenessDiff < 3/10 then 6/10
    else 3/10

/-- `ExplainMatch`. -/
def explainMatch (nameSim _dataSim normalizedSim cardinalitySim : ℚ)
    (p1 p2 : DataQualityProfile) (formatMatch : Bool) (formatType : String) : String :=
  let explanations : List String := []
  let explanations := explanations ++
    (if 7/10 < nameSim then ["column names are very similar"]
     else if 4/10 < nameSim then ["column names are somewhat similar"] else [])
  let explanations := explanations ++
    (if formatMatch then ["same " ++ formatType ++ " data in different formats"] else [])
  let explanations := explanations ++
    (if 7/10 < normalizedSim then ["high value overlap when normalized"]
     else if 4/10 < normalizedSim then ["moderate value overlap"] else [])
  let explanations := explanations ++
    (if p1.isPrimaryKey && p2.isPrimaryKey then ["both are unique identifiers"]
     else if 7/10 < cardinalitySim then ["similar cardinality patterns"] else [])
  let explanations := explanations ++
    (if 7/10 < p1.qualityScore ∧ 7/10 < p2.qualityScore then ["both have high data quality"] else [])
  if explanations = [] then "weak match based on basic similarity"
  else String.intercalate ", " explanations

/-! ### `adaptive_learning.go` — AdaptiveWeightLearner -/

structure AdaptiveWeights where
  name : ℚ
  data : ℚ
  pattern : ℚ
  llm : ℚ
deriving Inhabited

/-- The default weights installed by `GetAdaptiveLearner`. -/
def defaultWeights : AdaptiveWeights :=
  { name := 35/100, data := 30/100, pattern := 20/100, llm := 15/100 }

/-- The fixed learning rate. -/
def learningRate : ℚ := 1/100

/-- `FeedbackEntry` (feedback_learning.go).  The `UserNote` and `Timestamp`
fields are dropped: no computation reads them. -/
structure FeedbackEntry where
  file1Column : String
  file2Column : String
  isCorrect : Bool
  correctMatch : String
  nameSimilarity : ℚ
  dataSimilarity : ℚ
  patternScore : ℚ
  confidence : ℚ
deriving Inhabited, DecidableEq

/-- The in-loop prediction of `UpdateWeights` (llm excluded). -/
def predictEntry (w : AdaptiveWeights) (fb : FeedbackEntry) : ℚ :=
  fb.nameSimilarity * w.name + fb.dataSimilarity * w.data + fb.patternScore * w.pattern

/-- The per-entry error `predicted - target`. -/
def entryError (w : AdaptiveWeights) (fb : FeedbackEntry) : ℚ :=
  predictEntry w fb - (if fb.isCorrect then 1 else 0)

/-- The averaged name gradient of `UpdateWeights`. -/
def gradName (w : AdaptiveWeights) (batch : List FeedbackEntry) : ℚ :=
  ((batch.map (fun fb => entryError w fb * fb.nameSimilarity)).sum) / (batch.length : ℚ)

/-- The averaged data gradient of `UpdateWeights`. -/
def gradData (w : AdaptiveWeights) (batch : List FeedbackEntry) : ℚ :=
  ((batch.map (fun fb => entryError w fb * fb.dataSimilarity)).sum) / (batch.length : ℚ)

/-- The averaged pattern gradient of `UpdateWeights`. -/
def gradPattern (w : AdaptiveWeights) (batch : List FeedbackEntry) : ℚ :=
  ((batch.map (fun fb => entryError w fb * fb.patternScore)).sum) / (batch.length : ℚ)

/-- The descent step of `UpdateWeights` (name/data/pattern only; llm is not
gradient-updated). -/
def descendedWeights (w : AdaptiveWeights) (batch : List FeedbackEntry) : AdaptiveWeights :=
  { w with
    name := w.name - learningRate * gradName w batch
    data := w.data - learningRate * gradData w batch
    pattern := w.pattern - learningRate * gradPattern w batch }

/-- The flooring step of `UpdateWeights`: every weight, llm included, is
clamped below at 0.05. -/
def flooredWeights (w : AdaptiveWeights) (batch : List FeedbackEntry) : AdaptiveWeights :=
  let d := descendedWeights w batch
  { name := max (5/100) d.name
    data := max (5/100) d.data
    pattern := max (5/100) d.pattern
    llm := max (5/100) d.llm }

/-- Sum of the four weights. -/
def weightsTotal (w : AdaptiveWeights) : ℚ := w.name + w.data + w.pattern + w.llm

/-- `UpdateWeights` — the new weights after one batch (the capped training
history and the async save do not affect the weights and are omitted). -/
def updateWeights (w : AdaptiveWeights) (batch : List FeedbackEntry) : AdaptiveWeights :=
  if batch = [] then w
  else
    let f := flooredWeights w batch
    let total := weightsTotal f
    if 0 < total then
      { name := f.name / total, data := f.data / total,
        pattern := f.pattern / total, llm := f.llm / total }
    else f

/-! ### `pattern_learning.go` — PatternLearner -/

/-- `PatternRule` (`LastUpdated` dropped: never read). -/
structure PatternRule where
  pattern1 : String
  pattern2 : String
  confidence : ℚ
  successCount : ℕ
  failCount : ℕ
deriving Inhabited

structure TokenMapping where
  token1 : String
  token2 : String
  score : ℚ
  occurrences : ℕ
deriving Inhabited

/-- PatternLearner state: the rule list plus the token-mapping map
(keyed by "token1|token2", modelled as an association list). -/
structure PatternLearnerState where
  patterns : List PatternRule
  tokenMappings : List (String × TokenMapping)

def emptyPatternState : PatternLearnerState := ⟨[], []⟩

/-- `calculatePatternConfidence` — Laplace-smoothed success ratio. -/
def calculatePatternConfidence (success fail : ℕ) : ℚ :=
  let total := success + fail
  if total = 0 then 1/2
  else ((success : ℚ) + 2) / ((total : ℚ) + 4)

/-- The ordered suffix rules of `extractPattern`. -/
def sfxRules : List (String × String) :=
  [("_id", "*_id"), ("_identifier", "*_identifier"), ("_code", "*_code"),
   ("_name", "*_name"), ("_date", "*_date"), ("_time", "*_time"),
   ("_at", "*_at"), ("_type", "*_type"), ("_status", "*_status"),
   ("_amount", "*_amount"), ("_price", "*_price"), ("_count", "*_count"),
   ("_num", "*_num"), ("_number", "*_number")]

/-- The ordered prefix rules of `extractPattern`. -/
def pfxRules : List (String × String) :=
  [("is_", "is_*"), ("has_", "has_*"), ("date_", "date_*"), ("num_", "num_*")]

/-- `extractPattern`. -/
def extractPattern (col : String) : String :=
  let col := sToLower col
  match sfxRules.find? (fun p => sHasSuffix col p.1) with
  | some p => p.2
  | none =>
    match pfxRules.find? (fun p => sHasPrefix col p.1) with
    | some p => p.2
    | none => ""

/-- `tokenizeColumn`. -/
def tokenizeColumn (col : String) : List String :=
  let col := sToLower col
  let col := sReplaceChar col '_' ' '
  let col := sReplaceChar col '-' ' '
  (sFields col).filter (fun t => 1 < t.length)

/-- `GetPatternBoost`.  The rule loop keeps scanning past rules whose
confidence lies in the neutral band, so it returns on the first matching
rule with extreme confidence. -/
def getPatternBoost (p : PatternLearnerState) (col1 col2 : String) : ℚ :=
  let pattern1 := extractPattern col1
  let pattern2 := extractPattern col2
  match p.patterns.find? (fun rule =>
      rule.pattern1 = pattern1 ∧ rule.pattern2 = pattern2 ∧
        (7/10 < rule.confidence ∨ rule.confidence < 3/10)) with
  | some rule => (rule.confidence - 1/2) * (4/10)
  | none =>
    let tokens1 := tokenizeColumn col1
    let tokens2 := tokenizeColumn col2
    let found := tokens1.foldr (fun t1 acc =>
      (tokens2.filterMap (fun t2 => List.lookup (t1 ++ "|" ++ t2) p.tokenMappings)) ++ acc) []
    if 0 < found.length then
      (((found.map (fun m => m.score - 1/2)).sum) / (found.length : ℚ)) * (2/10)
    else 0

/-! ### `confidence_calibration.go` — ConfidenceCalibrator -/

structure CalibrationBucket where
  rangeMin : ℚ
  rangeMax : ℚ
  totalCount : ℕ
  correctCount : ℕ
  actualAccuracy : ℚ
  calibrationFactor : ℚ
deriving Inhabited

/-- `CalibrationHistory` (timestamp dropped). -/
structure CalibRecord where
  predictedConf : ℚ
  actualCorrect : Bool
  calibratedConf : ℚ

structure CalibState where
  buckets : List CalibrationBucket
  history : List CalibRecord

/-- `initializeBuckets` — ten buckets for ranges 0–10, …, 90–100. -/
def initBuckets : List CalibrationBucket :=
  (List.range 10).map (fun i =>
    { rangeMin := (i : ℚ) * 10
      rangeMax := ((i : ℚ) + 1) * 10
      totalCount := 0
      correctCount := 0
      actualAccuracy := ((i : ℚ) * 10 + 5) / 100
      calibrationFactor := 1 })

def initCalibState : CalibState := ⟨initBuckets, []⟩

/-- Go's `int(q)` conversion for a float: truncation toward zero. -/
def goInt (q : ℚ) : ℤ := if q < 0 then -⌊-q⌋ else ⌊q⌋

/-- The bucket-index computation shared by `Update` and
`calibrateInternal`: `int(pred/10)`, clamped above to 9 and below to 0. -/
def bucketIdx (predictedConfidence : ℚ) : ℤ :=
  let i := goInt (predictedConfidence / 10)
  let i := if 10 ≤ i then 9 else i
  if i < 0 then 0 else i

/-- `calibrateInternal`: identity while the owning bucket has fewer than 5
observations, else scale by its calibration factor and clamp to [0,100]. -/
def calibrateInternal (buckets : List CalibrationBucket) (predictedConfidence : ℚ) : ℚ :=
  let bucket := buckets.getD (bucketIdx predictedConfidence).toNat default
  if bucket.totalCount < 5 then predictedConfidence
  else
    let calibrated := predictedConfidence * bucket.calibrationFactor
    let calibrated := if calibrated < 0 then 0 else calibrated
    if 100 < calibrated then 100 else calibrated

/-- The bucket mutation of `Update`: increment the owning bucket's counts
and recompute its accuracy and calibration factor. -/
def calibUpdateBuckets (buckets : List CalibrationBucket) (predictedConfidence : ℚ)
    (actualCorrect : Bool) : List CalibrationBucket :=
  let idx := (bucketIdx predictedConfidence).toNat
  let b := buckets.getD idx default
  let b := { b with
    totalCount := b.totalCount + 1
    correctCount := b.correctCount + (if actualCorrect then 1 else 0) }
  let b := if 0 < b.totalCount then
      { b with actualAccuracy := (b.correctCount : ℚ) / (b.totalCount : ℚ) }
    else b
  let expectedAccuracy := (b.rangeMin + b.rangeMax) / 200
  let b := if 0 < expectedAccuracy then
      { b with calibrationFactor := b.actualAccuracy / expectedAccuracy }
    else b
  buckets.set idx b

/-- `Update` — record one prediction outcome (history capped at 500; the
async save is omitted). -/
def calibUpdate (c : CalibState) (predictedConfidence : ℚ) (actualCorrect : Bool) : CalibState :=
  let buckets := calibUpdateBuckets c.buckets predictedConfidence actualCorrect
  let history := c.history ++
    [{ predictedConf := predictedConfidence, actualCorrect := actualCorrect,
       calibratedConf := calibrateInternal buckets predictedConfidence }]
  let history := if 500 < history.length then history.drop (history.length - 500) else history
  ⟨buckets, history⟩

/-! ### `feedback_learning.go` — FeedbackLearningSystem -/

structure Correction where
  suggested : String
  correct : String
  count : ℕ
deriving Inhabited

/-- The persisted feedback store: the append-only match log and the
corrections map (keyed "col1|col2", modelled as an association list). -/
structure FeedbackData where
  matchList : List FeedbackEntry
  corrections : List (String × Correction)

def emptyFeedbackData : FeedbackData := ⟨[], []⟩

/-- Go map upsert on an association list. -/
def upsert {α : Type} : List (String × α) → String → α → List (String × α)
  | [], k, v => [(k, v)]
  | kv :: rest, k, v => if kv.1 = k then (k, v) :: rest else kv :: upsert rest k v

/-- `AddFeedback` — appends the entry, upserts the correction for negative
feedback carrying an explicit correct match, and hands the most recent
batch (≥10 entries required) to `UpdateWeights`; the returned option is
that batch, `none` when `triggerMLLearning` skips the weight update.  (The
unconditional calibrator/pattern-learner fan-out and the synchronous save
do not change this store and are not modelled here.) -/
def addFeedback (f : FeedbackData) (entry : FeedbackEntry) :
    FeedbackData × Option (List FeedbackEntry) :=
  let matchList := f.matchList ++ [entry]
  let corrections :=
    if ¬ entry.isCorrect ∧ ¬ entry.correctMatch = "" then
      let key := entry.file1Column ++ "|" ++ entry.file2Column
      let count := match List.lookup key f.corrections with
        | some existing => existing.count + 1
        | none => 1
      upsert f.corrections key
        { suggested := entry.file2Column, correct := entry.correctMatch, count := count }
    else f.corrections
  let recentFeedback := if 10 < matchList.length then matchList.drop (matchList.length - 10) else matchList
  (⟨matchList, corrections⟩, if 10 ≤ recentFeedback.length then some recentFeedback else none)

/-- `GetLearnedBoost` — first-match-wins over the historical log, then the
exact corrections key, then any correction whose suggestion was this
column, else neutral. -/
def getLearnedBoost (f : FeedbackData) (file1Col file2Col : String) : ℚ :=
  match f.matchList.find? (fun m => m.file1Column = file1Col ∧ m.file2Column = file2Col) with
  | some m => if m.isCorrect then 2/10 else -(3/10)
  | none =>
    if (List.lookup (file1Col ++ "|" ++ file2Col) f.corrections).isSome then -(25/100)
    else if f.corrections.any (fun kv => kv.2.suggested = file2Col) then -(15/100)
    else 0

/-! ### `similarity.go` — Levenshtein ratio -/

/-- The inner `j`-loop body of `levenshtein`: one sweep over `r2`, carrying
the DP row (as a list) and the `prev` accumulator. -/
def levRowSweep (r1c : Char) (r2 : List Char) (row : List ℕ) (i : ℕ) : List ℕ × ℕ :=
  (List.range r2.length).foldl (fun rp j0 =>
    let row := rp.1
    let prev := rp.2
    let j := j0 + 1
    let val :=
      if r1c = r2.getD (j - 1) ' ' then row.getD (j - 1) 0
      else min (min (row.getD (j - 1) 0 + 1) (prev + 1)) (row.getD j 0 + 1)
    (row.set (j - 1) prev, val)) (row, i)

/-- `levenshtein` (similarity.go): the imperative single-row DP, loop for
loop. -/
def levenshtein (s1 s2 : String) : ℕ :=
  let r1 := s1.data
  let r2 := s2.data
  let len2 := r2.length
  let row0 := List.range (len2 + 1)
  let finalRow := (List.range r1.length).foldl (fun row i0 =>
    let i := i0 + 1
    let rp := levRowSweep (r1.getD (i - 1) ' ') r2 row i
    rp.1.set len2 rp.2) row0
  finalRow.getD len2 0

/-- `LevenshteinRatio` — similarity in [0,1]; Go's `len` is the byte
length. -/
def levenRatio (s1 s2 : String) : ℚ :=
  let s1 := sToLower s1
  let s2 := sToLower s2
  let distance := levenshtein s1 s2
  let maxLen : ℚ := (max (sByteLen s1) (sByteLen s2) : ℕ)
  if maxLen = 0 then 1
  else 1 - (distance : ℚ) / maxLen

/-! ### `enhanced_similarity.go` — EnhancedSimilarityService -/

/-- `buildSynonymMap`, in source-literal order (a Go map; only looked up by
key, never iterated, so the order is immaterial). -/
def buildSynonymMap : List (String × List String) :=
  [("price", ["cost", "amount", "value", "fee", "charge", "rate", "total"]),
   ("cost", ["price", "amount", "value", "fee", "charge", "expense"]),
   ("amount", ["price", "cost", "value", "total", "sum", "quantity"]),
   ("revenue", ["income", "sales", "earnings", "profit"]),
   ("id", ["identifier", "key", "code", "number", "num", "no"]),
   ("identifier", ["id", "key", "code", "number"]),
   ("code", ["id", "identifier", "key", "number"]),
   ("number", ["id", "num", "no", "code"]),
   ("name", ["fullname", "title", "label", "description"]),
   ("firstname", ["first", "fname", "givenname", "given"]),
   ("lastname", ["last", "lname", "surname", "family"]),
   ("email", ["mail", "emailaddress", "emailid"]),
   ("phone", ["mobile", "cell", "telephone", "tel", "contact"]),
   ("address", ["location", "addr", "street"]),
   ("city", ["town", "municipality", "place"]),
   ("state", ["province", "region", "territory"]),
   ("country", ["nation", "countrycode"]),
   ("zip", ["zipcode", "postal", "postalcode", "pincode"]),
   ("date", ["datetime", "timestamp", "time", "dt"]),
   ("created", ["createdat", "createddate", "creationdate", "created_at"]),
   ("updated", ["updatedat", "updateddate", "modifieddate", "modified", "updated_at"]),
   ("startdate", ["start", "begin", "from", "fromdate"]),
   ("enddate", ["end", "finish", "to", "todate"]),
   ("status", ["state", "condition", "flag", "active", "enabled"]),
   ("type", ["category", "kind", "class", "classification"]),
   ("quantity", ["qty", "count", "num", "amount", "units"]),
   ("count", ["quantity", "qty", "total", "num"]),
   ("description", ["desc", "details", "info", "notes", "comment", "remarks"]),
   ("notes", ["description", "comments", "remarks", "memo"])]

/-- The camelCase pass of `tokenize`: the Go loop inserts a space before an
uppercase rune (except at index 0) and lowercases every rune.  (The input
was already lowercased, so the insertion branch is dead, but we keep it.) -/
def camelSplitAux : List Char → ℕ → List Char
  | [], _ => []
  | c :: rest, i =>
    (if 0 < i ∧ isUpperChar c then [' ', lowerChar c] else [lowerChar c]) ++
      camelSplitAux rest (i + 1)

/-- `tokenize` (enhanced_similarity.go): lowercase, separators to spaces,
camelCase split, split into fields, drop single-character tokens. -/
def tokenize (name : String) : List String :=
  let name := sToLower name
  let name := sReplaceChar name '_' ' '
  let name := sReplaceChar name '-' ' '
  let name := sReplaceChar name '.' ' '
  let name : String := ⟨camelSplitAux name.data 0⟩
  (sFields name).filter (fun t => 1 < t.length)

/-- `normalize` (enhanced_similarity.go). -/
def normalize (name : String) : String :=
  let name := sToLower name
  let name := sRemoveChar name '_'
  let name := sRemoveChar name '-'
  sRemoveChar name ' '

/-- `calculateTokenSimilarity` — returns (similarity, synonym-flag).  The
Go token sets are maps; intersection counts and the synonym flag are
independent of iteration order. -/
def calculateTokenSimilarity (col1 col2 : String) : ℚ × Bool :=
  let tokens1 := tokenize col1
  let tokens2 := tokenize col2
  if tokens1.length = 0 ∨ tokens2.length = 0 then (0, false)
  else if sEqualFold (normalize col1) (normalize col2) then (1, false)
  else
    let set1 := distinctList tokens1
    let set2 := distinctList tokens2
    let interDirect := (set1.filter (fun t => set2.contains t)).length
    let synHits := set1.filter (fun t1 =>
      match List.lookup t1 buildSynonymMap with
      | some syns => syns.any (fun syn => set2.contains syn)
      | none => false)
    let synonymMatch : Bool := 0 < synHits.length
    let intersection := interDirect + synHits.length
    let union : ℤ := (set1.length : ℤ) + (set2.length : ℤ) - (intersection : ℤ)
    if union = 0 then (0, false)
    else
      let jaccardSim : ℚ := (intersection : ℚ) / (union : ℚ)
      let levenSim := levenRatio col1 col2
      (max jaccardSim levenSim, synonymMatch)

/-- The per-value pattern vote of `detectPattern`: the first matching
pattern (Go picks it by map-iteration order; we fix the source-literal
order of `buildPatternMap` — the spec flags this nondeterminism). -/
def valuePattern (val : String) : Option String :=
  (buildPatternMap.find? (fun p => rxMatch p.2 val)).map (fun p => p.1)

/-- `detectPattern`: vote over up to 50 sampled values; the winner needs at
least `int(0.6 * sampleSize)` votes.  The winner scan again fixes the
map-iteration order to the source-literal pattern order. -/
def detectPattern (df : DataFrame) (colIdx : ℕ) : String :=
  if df.rows.length = 0 then ""
  else
    let sampleSize := if df.rows.length < 50 then df.rows.length else 50
    let votes := (df.rows.take sampleSize).filterMap (fun row =>
      if row.length ≤ colIdx then none
      else
        let val := row.getD colIdx ""
        if val = "" then none else valuePattern val)
    let threshold := (goInt ((sampleSize : ℚ) * (6/10))).toNat
    match buildPatternMap.find? (fun p => 0 < votes.count p.1 ∧ threshold ≤ votes.count p.1) with
    | some p => p.1
    | none => ""

/-- `calculateValueOverlap` — Jaccard similarity of up to 500 sampled
lowercased values per column. -/
def calculateValueOverlap (df1 df2 : DataFrame) (col1Idx col2Idx : ℕ) : ℚ :=
  let limit1 := if df1.rows.length < 500 then df1.rows.length else 500
  let limit2 := if df2.rows.length < 500 then df2.rows.length else 500
  let set1 := distinctList ((df1.rows.take limit1).filterMap (fun row =>
    if col1Idx < row.length ∧ ¬ row.getD col1Idx "" = "" then
      some (sToLower (row.getD col1Idx "")) else none))
  let set2 := distinctList ((df2.rows.take limit2).filterMap (fun row =>
    if col2Idx < row.length ∧ ¬ row.getD col2Idx "" = "" then
      some (sToLower (row.getD col2Idx "")) else none))
  if set1.length = 0 ∨ set2.length = 0 then 0
  else
    let intersection := (set1.filter (fun v => set2.contains v)).length
    let union := set1.length + set2.length - intersection
    if union = 0 then 0
    else (intersection : ℚ) / (union : ℚ)

/-- `getFloatValues` — the parseable numeric values of a column (via the
environment's `strconv.ParseFloat`). -/
def getFloatValues (env : Env) (df : DataFrame) (colIdx : ℕ) : List ℚ :=
  df.rows.filterMap (fun row =>
    if row.length ≤ colIdx then none else env.parseFloat (row.getD colIdx ""))

/-- `meanAndStd` (standard deviation via the environment's `math.Sqrt`). -/
def meanAndStd (env : Env) (vals : List ℚ) : ℚ × ℚ :=
  if vals.length = 0 then (0, 0)
  else
    let mean := vals.sum / (vals.length : ℚ)
    let sumSq := (vals.map (fun v => (v - mean) * (v - mean))).sum
    (mean, env.sqrt (sumSq / (vals.length : ℚ)))

/-- `minMax`. -/
def minMaxQ (vals : List ℚ) : ℚ × ℚ :=
  match vals with
  | [] => (0, 0)
  | v0 :: _ => (vals.foldl min v0, vals.foldl max v0)

/-- `calculateDistributionSimilarity` — 0.6·CoV similarity + 0.4·range
overlap; zero when either column has fewer than 5 numeric values. -/
def calculateDistributionSimilarity (env : Env) (df1 df2 : DataFrame) (col1Idx col2Idx : ℕ) : ℚ :=
  let vals1 := getFloatValues env df1 col1Idx
  let vals2 := getFloatValues env df2 col2Idx
  if vals1.length < 5 ∨ vals2.length < 5 then 0
  else
    let ms1 := meanAndStd env vals1
    let ms2 := meanAndStd env vals2
    let cv1 := if ¬ ms1.1 = 0 then ms1.2 / |ms1.1| else 0
    let cv2 := if ¬ ms2.1 = 0 then ms2.2 / |ms2.1| else 0
    let cvDiff := |cv1 - cv2|
    let cvSim := max 0 (1 - cvDiff)
    let mm1 := minMaxQ vals1
    let mm2 := minMaxQ vals2
    let range1 := mm1.2 - mm1.1
    let range2 := mm2.2 - mm2.1
    let rangeSim := if 0 < range1 ∧ 0 < range2 then min range1 range2 / max range1 range2 else 0
    cvSim * (6/10) + rangeSim * (4/10)

/-- `models.Context` — only the fields `applyContextBoost` reads; custom
mappings form a Go map, modelled as an association list. -/
structure Context where
  businessDomain : String
  keyEntities : List String
  customMappings : List (String × String)

/-- The sequential clamp `if c < 0 then 0; if c > 100 then 100` at the end
of `compareColumns`. -/
def clamp100 (q : ℚ) : ℚ :=
  let q := if q < 0 then 0 else q
  if 100 < q then 100 else q

/-- `applyContextBoost`: an explicit custom mapping short-circuits to 95;
otherwise multiply in the same-domain (×1.1) and first shared key entity
(×1.15) boosts and cap at 100. -/
def applyContextBoost (confidence : ℚ) (col1 col2 : String) (ctx1 ctx2 : Context) : ℚ :=
  if List.lookup col1 ctx1.customMappings = some col2 then 95
  else
    let boost : ℚ := 1
    let boost := if ¬ ctx1.businessDomain = "" ∧ ctx1.businessDomain = ctx2.businessDomain
      then boost * (11/10) else boost
    let col1Lower := sToLower col1
    let col2Lower := sToLower col2
    let boost := if ctx1.keyEntities.any (fun entity =>
        sContains col1Lower (sToLower entity) && sContains col2Lower (sToLower entity))
      then boost * (115/100) else boost
    min 100 (confidence * boost)

structure SimilarityResult where
  file1Column : String
  file2Column : String
  similarity : ℚ
  confidence : ℚ
  type : String
  dataSimilarity : ℚ
  nameSimilarity : ℚ
  distributionSimilarity : ℚ
  jsonConfidence : ℚ
  llmSemanticScore : ℚ
  reason : String
  tokenSimilarity : ℚ
  synonymMatch : Bool
  patternMatch : String
  valueOverlap : ℚ
deriving Inhabited

/-- `determineType` — the first-true classification rule. -/
def determineType (r : SimilarityResult) : String :=
  if ¬ r.patternMatch = "" then "pattern"
  else if 1/2 < r.valueOverlap then "value_overlap"
  else if 1/2 < r.distributionSimilarity then "distribution"
  else if r.synonymMatch then "synonym"
  else if 1/2 < r.tokenSimilarity then "token"
  else if 3/10 < r.nameSimilarity then "name"
  else "weak"

/-- Steps 1–13 of `compareColumns` (all signals, weighted combination and
learned/synonym/primary-key boosts, before the context boost, calibration
and final clamp).  The singletons the Go method reaches for
(`GetAdaptiveLearner`, `GetFeedbackSystem`, `GetPatternLearner`) are passed
as explicit state arguments. -/
def compareColumnsCore (env : Env) (weights : AdaptiveWeights) (fd : FeedbackData)
    (pl : PatternLearnerState)
    (df1 df2 : DataFrame) (col1Idx col2Idx : ℕ) (col1 col2 : String) : SimilarityResult :=
  let ts := calculateTokenSimilarity col1 col2
  let tokenSim := ts.1
  let isSynonym := ts.2
  let pattern1 := detectPattern df1 col1Idx
  let pattern2 := detectPattern df2 col2Idx
  let patternScore : ℚ := if ¬ pattern1 = "" ∧ pattern1 = pattern2 then 9/10 else 0
  let patternMatch0 : String := if ¬ pattern1 = "" ∧ pattern1 = pattern2 then pattern1 else ""
  let profile1 := profileColumn env df1 col1Idx
  let profile2 := profileColumn env df2 col2Idx
  let qualityMatch := compareQuality profile1 profile2
  let cardinalityMatch := calculateCardinalityMatch profile1 profile2
  let normalizedMatch := calculateNormalizedMatch env df1 df2 col1Idx col2Idx
  let ft := detectFormatTransformation env df1 df2 col1Idx col2Idx
  let formatTransform := ft.1
  let formatType := ft.2
  let isNum1 := getNumericColumnIndices df1 col1Idx
  let isNum2 := getNumericColumnIndices df2 col2Idx
  let distributionSimilarity : ℚ :=
    if isNum1 && isNum2 then calculateDistributionSimilarity env df1 df2 col1Idx col2Idx else 0
  let valueOverlap : ℚ :=
    if ¬ isNum1 && ¬ isNum2 then
      max (calculateValueOverlap df1 df2 col1Idx col2Idx) normalizedMatch
    else 0
  let dataSimilarity : ℚ :=
    if isNum1 && isNum2 then distributionSimilarity
    else if ¬ isNum1 && ¬ isNum2 then valueOverlap
    else 0
  let llmSemanticScore : ℚ := 0
  let conf := tokenSim * weights.name * 100 + dataSimilarity * weights.data * 100 +
    patternScore * weights.pattern * 100 + llmSemanticScore * weights.llm * 100 +
    qualityMatch * 10 + cardinalityMatch * 15 + normalizedMatch * 10
  let conf := if formatTransform then min 100 (conf * (125/100)) else conf
  let patternMatch1 := if formatTransform then formatType ++ "_transform" else patternMatch0
  let conf := conf + getLearnedBoost fd col1 col2 * 100
  let conf := conf + getPatternBoost pl col1 col2 * 100
  let conf := if isSynonym then min 100 (conf * (12/10)) else conf
  let conf := if (profile1.isPrimaryKey && profile2.isPrimaryKey) ∧ 1/2 < normalizedMatch
    then min 100 (conf * (13/10)) else conf
  { file1Column := col1
    file2Column := col2
    similarity := conf / 100
    confidence := conf
    type := ""
    dataSimilarity := dataSimilarity
    nameSimilarity := tokenSim
    distributionSimilarity := distributionSimilarity
    jsonConfidence := patternScore
    llmSemanticScore := llmSemanticScore
    reason := explainMatch tokenSim dataSimilarity normalizedMatch cardinalityMatch
      profile1 profile2 formatTransform formatType
    tokenSimilarity := tokenSim
    synonymMatch := isSynonym
    patternMatch := patternMatch1
    valueOverlap := valueOverlap }

/-- `compareColumns` — steps 14–15 on top of `compareColumnsCore`: the
optional context boost, confidence calibration, the final clamp to
[0,100], the derived similarity ratio and the type classification. -/
def compareColumns (env : Env) (weights : AdaptiveWeights) (fd : FeedbackData)
    (pl : PatternLearnerState) (cal : List CalibrationBucket)
    (df1 df2 : DataFrame) (col1Idx col2Idx : ℕ) (col1 col2 : String)
    (ctx1 ctx2 : Option Context) : SimilarityResult :=
  let r := compareColumnsCore env weights fd pl df1 df2 col1Idx col2Idx col1 col2
  let conf := match ctx1, ctx2 with
    | some t1, some t2 => applyContextBoost r.confidence col1 col2 t1 t2
    | _, _ => r.confidence
  let conf := calibrateInternal cal conf
  let conf := clamp100 conf
  let r := { r with confidence := conf, similarity := conf / 100 }
  { r with type := determineType r }

/-- The unfiltered cross product of per-pair results, in the loop order of
`CalculateEnhancedSimilarity`. -/
def allPairResults (env : Env) (weights : AdaptiveWeights) (fd : FeedbackData)
    (pl : PatternLearnerState) (cal : List CalibrationBucket)
    (df1 df2 : DataFrame) (ctx1 ctx2 : Option Context) : List SimilarityResult :=
  (df1.headers.enum.map (fun p1 =>
    df2.headers.enum.map (fun p2 =>
      compareColumns env weights fd pl cal df1 df2 p1.1 p2.1 p1.2 p2.2 ctx1 ctx2))).flatten

/-- `CalculateEnhancedSimilarity`: keep only results with confidence
strictly above 10, then sort descending by confidence (`sort.Slice` with
`less i j := conf i > conf j`). -/
def calculateEnhancedSimilarity (env : Env) (weights : AdaptiveWeights) (fd : FeedbackData)
    (pl : PatternLearnerState) (cal : List CalibrationBucket)
    (df1 df2 : DataFrame) (ctx1 ctx2 : Option Context) : List SimilarityResult :=
  let results := (allPairResults env weights fd pl cal df1 df2 ctx1 ctx2).filter
    (fun r => 10 < r.confidence)
  results.mergeSort (fun a b => decide (b.confidence ≤ a.confidence))

/-! ## Concrete instances used by counterexamples and witnesses -/

/-- A concrete environment for closed evaluations.  The inputs below only
ever hold empty cells, so none of these functions is consulted by the
computations the theorems evaluate. -/
def cexEnv : Env :=
  { log2 := fun _ => 0, sqrt := fun _ => 0, parseFloat := fun _ => none,
    detectFormat := fun _ => "text", normalizeValue := fun s => s }

/-- Single-column dataframe with one empty cell. -/
def dfA : DataFrame := ⟨["a"], [[""]]⟩

/-- Single-column dataframe with one empty cell. -/
def dfB : DataFrame := ⟨["b"], [[""]]⟩

/-- A context declaring the explicit custom mapping a ↦ b. -/
def ctxA : Context := ⟨"", [], [("a", "b")]⟩

/-- An empty context. -/
def ctxB : Context := ⟨"", [], []⟩

/-- The calibrator bucket list after `k` negative `Update(95, ·)` calls:
only bucket 9 is touched; its accuracy and factor collapse to 0. -/
def cexBucketsAt (k : ℕ) : List CalibrationBucket :=
  [⟨0, 10, 0, 0, 5/100, 1⟩, ⟨10, 20, 0, 0, 15/100, 1⟩, ⟨20, 30, 0, 0, 25/100, 1⟩,
   ⟨30, 40, 0, 0, 35/100, 1⟩, ⟨40, 50, 0, 0, 45/100, 1⟩, ⟨50, 60, 0, 0, 55/100, 1⟩,
   ⟨60, 70, 0, 0, 65/100, 1⟩, ⟨70, 80, 0, 0, 75/100, 1⟩, ⟨80, 90, 0, 0, 85/100, 1⟩,
   ⟨90, 100, k, 0, 0, 0⟩]

/-! ## Supporting lemmas -/

theorem bucketIdx95 : bucketIdx 95 = 9 := by norm_num [bucketIdx, goInt]

theorem bucketIdx95Nat : (bucketIdx 95).toNat = 9 := by rw [bucketIdx95]; rfl

theorem initBuckets_eval : initBuckets =
    [⟨0, 10, 0, 0, 5/100, 1⟩, ⟨10, 20, 0, 0, 15/100, 1⟩, ⟨20, 30, 0, 0, 25/100, 1⟩,
     ⟨30, 40, 0, 0, 35/100, 1⟩, ⟨40, 50, 0, 0, 45/100, 1⟩, ⟨50, 60, 0, 0, 55/100, 1⟩,
     ⟨60, 70, 0, 0, 65/100, 1⟩, ⟨70, 80, 0, 0, 75/100, 1⟩, ⟨80, 90, 0, 0, 85/100, 1⟩,
     ⟨90, 100, 0, 0, 95/100, 1⟩] := by
  norm_num [initBuckets, List.range_succ]

theorem calibStep (k : ℕ) :
    calibUpdateBuckets (cexBucketsAt k) 95 false = cexBucketsAt (k + 1) := by
  rw [calibUpdateBuckets, bucketIdx95Nat]
  norm_num [cexBucketsAt, List.getD, List.set]

theorem calibStep0 : calibUpdateBuckets initBuckets 95 false = cexBucketsAt 1 := by
  rw [calibUpdateBuckets, bucketIdx95Nat, initBuckets_eval]
  norm_num [cexBucketsAt, List.getD, List.set]

/-- Five negative feedbacks at confidence 95 drive the calibrator into the
`cexBucketsAt 5` state: the counterexample state is reachable. -/
theorem cexBuckets_reachable :
    (calibUpdate (calibUpdate (calibUpdate (calibUpdate (calibUpdate initCalibState
      95 false) 95 false) 95 false) 95 false) 95 false).buckets = cexBucketsAt 5 := by
  have hb : ∀ (c : CalibState) (p : ℚ) (b : Bool),
      (calibUpdate c p b).buckets = calibUpdateBuckets c.buckets p b := fun _ _ _ => rfl
  rw [hb, hb, hb, hb, hb]
  show calibUpdateBuckets (calibUpdateBuckets (calibUpdateBuckets (calibUpdateBuckets
    (calibUpdateBuckets initBuckets 95 false) 95 false) 95 false) 95 false) 95 false = _
  rw [calibStep0, calibStep, calibStep, calibStep, calibStep]

/-- In the counterexample state, bucket 9 holds five observations with
calibration factor 0, so a predicted 95 is calibrated to 0. -/
theorem calibrate95_cex : calibrateInternal (cexBucketsAt 5) 95 = 0 := by
  rw [calibrateInternal, bucketIdx95Nat]
  norm_num [cexBucketsAt, List.getD]

theorem applyContextBoost_custom (c : ℚ) (col1 col2 : String) (t1 t2 : Context)
    (h : List.lookup col1 t1.customMappings = some col2) :
    applyContextBoost c col1 col2 t1 t2 = 95 := by
  simp [applyContextBoost, h]

/-- Shared kernel of the C2 analysis: with both contexts present and an
explicit custom mapping col1 ↦ col2, `compareColumns` returns the
calibrated-and-clamped image of 95 — the context boost pins the value to
95, but calibration still runs afterwards. -/
theorem compareColumns_customMapping_aux (env : Env) (w : AdaptiveWeights) (fd : FeedbackData)
    (pl : PatternLearnerState) (cal : List CalibrationBucket) (df1 df2 : DataFrame)
    (i j : ℕ) (col1 col2 : String) (t1 t2 : Context)
    (h : List.lookup col1 t1.customMappings = some col2) :
    (compareColumns env w fd pl cal df1 df2 i j col1 col2 (some t1) (some t2)).confidence =
      clamp100 (calibrateInternal cal 95) := by
  unfold compareColumns
  dsimp only
  rw [applyContextBoost_custom _ _ _ _ _ h]

/-! ## Claim C2 -/

/-- C2 (counterexample): the claim says an explicit custom mapping forces
the returned confidence to exactly 95, overriding every other adjustment.
It does not: calibration runs after the context boost.  After five negative
feedbacks at confidence 95 (a reachable calibrator state, first conjunct),
the pair ("a","b") with custom mapping a ↦ b comes back with confidence 0,
not 95. -/
theorem C2_counterexample :
    (calibUpdate (calibUpdate (calibUpdate (calibUpdate (calibUpdate initCalibState
      95 false) 95 false) 95 false) 95 false) 95 false).buckets = cexBucketsAt 5 ∧
    (compareColumns cexEnv defaultWeights emptyFeedbackData emptyPatternState (cexBucketsAt 5)
      dfA dfB 0 0 "a" "b" (some ctxA) (some ctxB)).confidence = 0 ∧
    ¬ ((0 : ℚ) = 95) := by
  refine ⟨cexBuckets_reachable, ?_, by norm_num⟩
  rw [compareColumns_customMapping_aux cexEnv defaultWeights emptyFeedbackData
    emptyPatternState (cexBucketsAt 5) dfA dfB 0 0 "a" "b" ctxA ctxB rfl, calibrate95_cex]
  norm_num [clamp100]

/-- C2 (amended): with both request contexts present and context 1
declaring an explicit custom mapping col1 ↦ col2, the final confidence of
`compareColumns` is the calibrated-and-clamped image of 95: the context
boost overrides every earlier signal, boost and adjustment and pins the
value to exactly 95, but the result is still passed through the
`ConfidenceCalibrator` (so it equals 95 exactly when the owning bucket has
fewer than 5 observations, e.g. in the initial calibrator state — see the
witness). -/
theorem C2_custom_mapping_calibrated (env : Env) (w : AdaptiveWeights) (fd : FeedbackData)
    (pl : PatternLearnerState) (cal : List CalibrationBucket) (df1 df2 : DataFrame)
    (i j : ℕ) (col1 col2 : String) (t1 t2 : Context)
    (h : List.lookup col1 t1.customMappings = some col2) :
    (compareColumns env w fd pl cal df1 df2 i j col1 col2 (some t1) (some t2)).confidence =
      clamp100 (calibrateInternal cal 95) :=
  compareColumns_customMapping_aux env w fd pl cal df1 df2 i j col1 col2 t1 t2 h

/-- C2 witness: on the initial calibrator state the amended claim yields
exactly 95. -/
theorem C2_custom_mapping_calibrated_witness :
    (compareColumns cexEnv defaultWeights emptyFeedbackData emptyPatternState initBuckets
      dfA dfB 0 0 "a" "b" (some ctxA) (some ctxB)).confidence = 95 := by
  rw [C2_custom_mapping_calibrated cexEnv defaultWeights emptyFeedbackData emptyPatternState
    initBuckets dfA dfB 0 0 "a" "b" ctxA ctxB rfl]
  rw [calibrateInternal, bucketIdx95Nat, initBuckets_eval]
  norm_num [clamp100, List.getD]

/-! ## Claim C4 -/

/-- C4: for every bucket state and every predicted confidence x ∈ [0,100],
`Calibrate(x)` returns x unchanged whenever the owning bucket — whose index
is `floor(x/10)` clamped to 9 — holds fewer than 5 observations.  The
second conjunct checks that the code's bucket index equals the claim's
`min ⌊x/10⌋ 9` on [0,100]. -/
theorem C4_calibrate_identity (cb : List CalibrationBucket) (x : ℚ)
    (hx0 : 0 ≤ x) (hx1 : x ≤ 100)
    (hcount : (cb.getD (bucketIdx x).toNat default).totalCount < 5) :
    calibrateInternal cb x = x ∧ (bucketIdx x).toNat = min (⌊x / 10⌋).toNat 9 := by
  constructor
  · rw [calibrateInternal]; rw [if_pos hcount]
  · have h10 : goInt (x / 10) = ⌊x / 10⌋ := by
      rw [goInt, if_neg (not_lt.mpr (div_nonneg hx0 (by norm_num)))]
    have h0 : 0 ≤ ⌊x / 10⌋ := Int.floor_nonneg.mpr (div_nonneg hx0 (by norm_num))
    have h1 : ⌊x / 10⌋ ≤ 10 := by
      have hle : x / 10 ≤ 10 := by linarith
      calc ⌊x / 10⌋ ≤ ⌊(10 : ℚ)⌋ := Int.floor_le_floor hle
        _ = 10 := by norm_num
    rw [bucketIdx]; rw [h10]
    split_ifs <;> omega

/-- C4 witness: in the fresh bucket state, bucket 4 (owning x = 42) has 0
observations and `Calibrate(42) = 42`. -/
theorem C4_calibrate_identity_witness : (0 : ℚ) ≤ 42 ∧ (42 : ℚ) ≤ 100 ∧
    (initBuckets.getD (bucketIdx 42).toNat default).totalCount < 5 ∧
    calibrateInternal initBuckets 42 = 42 := by
  have hidx : (bucketIdx 42).toNat = 4 := by
    have h : bucketIdx 42 = 4 := by norm_num [bucketIdx, goInt]
    rw [h]; rfl
  have hcount : (initBuckets.getD (bucketIdx 42).toNat default).totalCount < 5 := by
    rw [hidx, initBuckets_eval]; norm_num [List.getD]
  exact ⟨by norm_num, by norm_num, hcount,
    (C4_calibrate_identity initBuckets 42 (by norm_num) (by norm_num) hcount).1⟩

/-! ## Claim C9 -/

/-- C9: for every real-valued predicted confidence (negative and above 100
included) the bucket index computed by `Update` and `calibrateInternal` is
clamped into [0,9]; `Update` preserves the bucket-array length and the
fixed array has exactly 10 buckets, so no out-of-range access occurs. -/
theorem C9_bucket_index_safe (q p : ℚ) (st : CalibState) (b : Bool) :
    0 ≤ bucketIdx q ∧ bucketIdx q ≤ 9 ∧
    (calibUpdate st p b).buckets.length = st.buckets.length ∧
    initBuckets.length = 10 := by
  refine ⟨?_, ?_, ?_, by rw [initBuckets_eval]; rfl⟩
  · rw [bucketIdx]; split_ifs <;> omega
  · rw [bucketIdx]; split_ifs <;> omega
  · show (calibUpdateBuckets st.buckets p b).length = _
    rw [calibUpdateBuckets]
    exact List.length_set _ _ _

/-! ## Claim C1 -/

/-- Feedback entry used by the C1 counterexample: component scores are
arbitrary floats in the Go code, and extreme values blow a weight past 1
before renormalization. -/
def cexC1Entry : FeedbackEntry :=
  { file1Column := "a", file2Column := "b", isCorrect := false, correctMatch := "",
    nameSimilarity := 100, dataSimilarity := -200, patternScore := 0, confidence := 0 }

/-- C1 (counterexample): the claim says every weight component is at least
0.05 after every update.  One update from the default weights on a
single-entry batch leaves the data weight at 1/515 < 0.05: the floor is
applied before renormalization, which can scale a floored component back
below 0.05. -/
theorem C1_counterexample :
    (updateWeights defaultWeights [cexC1Entry]).data = 1/515 ∧ ¬ ((5:ℚ)/100 ≤ 1/515) := by
  constructor
  · norm_num [updateWeights, flooredWeights, descendedWeights, gradName, gradData,
      gradPattern, entryError, predictEntry, weightsTotal, defaultWeights, learningRate,
      cexC1Entry, max_def]
  · norm_num

/-- C1 (amended): after every `UpdateWeights` call on a non-empty batch,
from any starting weights, the four weights sum to exactly 1 and each is
strictly positive; each weight is at least 0.05 after the floor step
(before the final renormalization), but renormalization may scale a
component below 0.05 (see the counterexample). -/
theorem C1_update_weights_invariant (w : AdaptiveWeights) (batch : List FeedbackEntry)
    (h : batch ≠ []) :
    weightsTotal (updateWeights w batch) = 1 ∧
    (0 < (updateWeights w batch).name ∧ 0 < (updateWeights w batch).data ∧
     0 < (updateWeights w batch).pattern ∧ 0 < (updateWeights w batch).llm) ∧
    (5/100 ≤ (flooredWeights w batch).name ∧ 5/100 ≤ (flooredWeights w batch).data ∧
     5/100 ≤ (flooredWeights w batch).pattern ∧ 5/100 ≤ (flooredWeights w batch).llm) := by
  have hfn : 5/100 ≤ (flooredWeights w batch).name := le_max_left _ _
  have hfd : 5/100 ≤ (flooredWeights w batch).data := le_max_left _ _
  have hfp : 5/100 ≤ (flooredWeights w batch).pattern := le_max_left _ _
  have hfl : 5/100 ≤ (flooredWeights w batch).llm := le_max_left _ _
  have htot : 0 < weightsTotal (flooredWeights w batch) := by
    rw [weightsTotal]; linarith
  have hupd : updateWeights w batch =
      ⟨(flooredWeights w batch).name / weightsTotal (flooredWeights w batch),
       (flooredWeights w batch).data / weightsTotal (flooredWeights w batch),
       (flooredWeights w batch).pattern / weightsTotal (flooredWeights w batch),
       (flooredWeights w batch).llm / weightsTotal (flooredWeights w batch)⟩ := by
    rw [updateWeights, if_neg h]
    rw [if_pos htot]
  refine ⟨?_, ⟨?_, ?_, ?_, ?_⟩, hfn, hfd, hfp, hfl⟩
  · rw [hupd, weightsTotal]
    show _ / _ + _ / _ + _ / _ + _ / _ = 1
    rw [div_add_div_same, div_add_div_same, div_add_div_same]
    rw [weightsTotal] at htot ⊢
    exact div_self (ne_of_gt htot)
  all_goals rw [hupd]
  · exact div_pos (by linarith) htot
  · exact div_pos (by linarith) htot
  · exact div_pos (by linarith) htot
  · exact div_pos (by linarith) htot

/-- Well-behaved feedback entry used by witnesses. -/
def c1wEntry : FeedbackEntry :=
  { file1Column := "a", file2Column := "b", isCorrect := true, correctMatch := "",
    nameSimilarity := 1, dataSimilarity := 1, patternScore := 1, confidence := 80 }

/-- C1 witness: the invariant instantiated at the default weights and a
concrete one-entry batch. -/
theorem C1_update_weights_invariant_witness :
    weightsTotal (updateWeights defaultWeights [c1wEntry]) = 1 ∧
    (0 < (updateWeights defaultWeights [c1wEntry]).name ∧
     0 < (updateWeights defaultWeights [c1wEntry]).data ∧
     0 < (updateWeights defaultWeights [c1wEntry]).pattern ∧
     0 < (updateWeights defaultWeights [c1wEntry]).llm) ∧
    (5/100 ≤ (flooredWeights defaultWeights [c1wEntry]).name ∧
     5/100 ≤ (flooredWeights defaultWeights [c1wEntry]).data ∧
     5/100 ≤ (flooredWeights defaultWeights [c1wEntry]).pattern ∧
     5/100 ≤ (flooredWeights defaultWeights [c1wEntry]).llm) :=
  C1_update_weights_invariant defaultWeights [c1wEntry] (by simp)

/-! ## Claim C6 -/

/-- The C6 counterexample batch entry: a correct confirmation of
user_id ↔ identifier whose data/pattern scores dominate the name score. -/
def cexC6Entry : FeedbackEntry :=
  { file1Column := "user_id", file2Column := "identifier", isCorrect := true, correctMatch := "",
    nameSimilarity := 1/10, dataSimilarity := 1, patternScore := 1, confidence := 50 }

/-- C6 (counterexample): ten consecutive correct confirmations of the same
pair with fixed component scores (0.1, 1, 1) *decrease* the name weight:
the gradient raises all three updated weights, and renormalization then
scales the name weight below its pre-batch value. -/
theorem C6_counterexample :
    (updateWeights defaultWeights (List.replicate 10 cexC6Entry)).name < defaultWeights.name := by
  have hne : List.replicate 10 cexC6Entry ≠ [] := by simp
  rw [updateWeights, if_neg hne]
  norm_num [flooredWeights, descendedWeights, gradName, gradData,
    gradPattern, entryError, predictEntry, weightsTotal, defaultWeights, learningRate,
    cexC6Entry, max_def, List.replicate]

/-- C6 (amended): for a batch of all-correct feedback with component scores
in [0,1], starting from nonnegative weights whose name+data+pattern sum is
at most 1, the name weight never decreases through the gradient step and
the floor — the pre-renormalization name weight is at least the pre-batch
value.  The final renormalization can still lower it (see the
counterexample). -/
theorem C6_name_weight_no_decrease (w : AdaptiveWeights) (batch : List FeedbackEntry)
    (hwn : 0 ≤ w.name) (hwd : 0 ≤ w.data) (hwp : 0 ≤ w.pattern)
    (hsum : w.name + w.data + w.pattern ≤ 1)
    (hb : ∀ e ∈ batch, e.isCorrect = true ∧
      0 ≤ e.nameSimilarity ∧ e.nameSimilarity ≤ 1 ∧
      0 ≤ e.dataSimilarity ∧ e.dataSimilarity ≤ 1 ∧
      0 ≤ e.patternScore ∧ e.patternScore ≤ 1) :
    w.name ≤ (flooredWeights w batch).name := by
  have hterm : ∀ e ∈ batch, entryError w e * e.nameSimilarity ≤ 0 := by
    intro e he
    obtain ⟨hc, hn0, hn1, hd0, hd1, hp0, hp1⟩ := hb e he
    have herr : entryError w e ≤ 0 := by
      rw [entryError, predictEntry, hc]
      have h1 : e.nameSimilarity * w.name ≤ w.name :=
        mul_le_of_le_one_left hwn hn1
      have h2 : e.dataSimilarity * w.data ≤ w.data :=
        mul_le_of_le_one_left hwd hd1
      have h3 : e.patternScore * w.pattern ≤ w.pattern :=
        mul_le_of_le_one_left hwp hp1
      simp only [if_true]
      linarith
    exact mul_nonpos_iff.mpr (Or.inr ⟨herr, hn0⟩)
  have hsumt : ((batch.map (fun fb => entryError w fb * fb.nameSimilarity)).sum) ≤ 0 := by
    induction batch with
    | nil => simp
    | cons e rest ih =>
      simp only [List.map_cons, List.sum_cons]
      have h1 := hterm e (List.mem_cons_self e rest)
      have h2 : ((rest.map (fun fb => entryError w fb * fb.nameSimilarity)).sum) ≤ 0 := by
        apply ih
        · intro x hx; exact hb x (List.mem_cons_of_mem _ hx)
        · intro x hx; exact hterm x (List.mem_cons_of_mem _ hx)
      linarith
  have hgrad : gradName w batch ≤ 0 := by
    rw [gradName]
    apply div_nonpos_of_nonpos_of_nonneg hsumt
    exact Nat.cast_nonneg _
  have hdesc : w.name ≤ (descendedWeights w batch).name := by
    show w.name ≤ w.name - learningRate * gradName w batch
    have hp : learningRate * gradName w batch ≤ 0 :=
      mul_nonpos_iff.mpr (Or.inl ⟨by norm_num [learningRate], hgrad⟩)
    linarith
  calc w.name ≤ (descendedWeights w batch).name := hdesc
    _ ≤ (flooredWeights w batch).name := le_max_right _ _

/-- Entry with all component scores 1, for the C6 witness. -/
def c6wEntry : FeedbackEntry :=
  { file1Column := "user_id", file2Column := "identifier", isCorrect := true, correctMatch := "",
    nameSimilarity := 1, dataSimilarity := 1, patternScore := 1, confidence := 80 }

/-- C6 witness: a concrete all-correct batch on the default weights. -/
theorem C6_name_weight_no_decrease_witness :
    defaultWeights.name ≤ (flooredWeights defaultWeights [c6wEntry]).name := by
  apply C6_name_weight_no_decrease defaultWeights [c6wEntry]
  · norm_num [defaultWeights]
  · norm_num [defaultWeights]
  · norm_num [defaultWeights]
  · norm_num [defaultWeights]
  · intro e he
    simp only [List.mem_singleton] at he
    subst he
    refine ⟨rfl, by norm_num [c6wEntry], by norm_num [c6wEntry], by norm_num [c6wEntry],
      by norm_num [c6wEntry], by norm_num [c6wEntry], by norm_num [c6wEntry]⟩

/-! ## Claim C3 -/

/-- C3 (amended): `AddFeedback` hands a batch to
`AdaptiveWeightLearner.UpdateWeights` on *every* call once the accumulated
log would reach 10 entries — not once per 10 entries — and that batch is
always the most recent 10 entries (a sliding, non-partitioned window):
the trigger fires iff the new total is ≥ 10, the batch is the suffix
starting at `total − 10`, and a triggered batch always has exactly 10
entries. -/
theorem C3_update_trigger (f : FeedbackData) (e : FeedbackEntry) :
    (addFeedback f e).2 = (if 10 ≤ f.matchList.length + 1
      then some ((f.matchList ++ [e]).drop (f.matchList.length + 1 - 10)) else none) ∧
    (∀ l, (addFeedback f e).2 = some l → l.length = 10) := by
  have hlen : (f.matchList ++ [e]).length = f.matchList.length + 1 := by simp
  have heq : (addFeedback f e).2 = (if 10 ≤ f.matchList.length + 1
      then some ((f.matchList ++ [e]).drop (f.matchList.length + 1 - 10)) else none) := by
    rw [addFeedback]
    dsimp only
    rw [hlen]
    by_cases h : 10 < f.matchList.length + 1
    · rw [if_pos h]
      have hdl : ((f.matchList ++ [e]).drop (f.matchList.length + 1 - 10)).length = 10 := by
        rw [List.length_drop, hlen]; omega
      rw [hdl, if_pos (le_refl 10), if_pos (by omega)]
    · rw [if_neg h, hlen]
      by_cases h2 : 10 ≤ f.matchList.length + 1
      · have h3 : f.matchList.length + 1 - 10 = 0 := by omega
        rw [if_pos h2, if_pos h2, h3, List.drop_zero]
      · rw [if_neg h2, if_neg h2]
  refine ⟨heq, ?_⟩
  intro l hl
  rw [heq] at hl
  by_cases h : 10 ≤ f.matchList.length + 1
  · rw [if_pos h] at hl
    have hll : l = (f.matchList ++ [e]).drop (f.matchList.length + 1 - 10) :=
      (Option.some.inj hl).symm
    rw [hll, List.length_drop, hlen]; omega
  · rw [if_neg h] at hl
    exact absurd hl (by simp)

/-- Entry used by the C3 counterexample run. -/
def c3Entry : FeedbackEntry :=
  { file1Column := "a", file2Column := "b", isCorrect := true, correctMatch := "",
    nameSimilarity := 0, dataSimilarity := 0, patternScore := 0, confidence := 0 }

/-- Iterates `AddFeedback` over a list of entries, counting how many of
the calls handed a batch to `UpdateWeights`. -/
def runFeedback : FeedbackData → List FeedbackEntry → FeedbackData × ℕ
  | f, [] => (f, 0)
  | f, e :: rest =>
    let step := addFeedback f e
    let next := runFeedback step.1 rest
    (next.1, (if step.2.isSome then 1 else 0) + next.2)

/-- C3 (counterexample): over 11 accumulated feedback entries
`UpdateWeights` is invoked twice (at the 10th and the 11th call), not the
once that "exactly once per 10 accumulated entries" predicts. -/
theorem C3_counterexample :
    (runFeedback emptyFeedbackData (List.replicate 11 c3Entry)).2 = 2 ∧ ¬ ((2 : ℕ) = 1) := by
  constructor
  · decide
  · decide

/-! ## Claim C5 -/

/-- The append-to-the-log step makes the exact-pair scan of
`GetLearnedBoost` find an entry for (col1, col2) whose `isCorrect` is
false, provided every pre-existing entry for the pair was also negative. -/
theorem C5_find_aux (L : List FeedbackEntry) (entry : FeedbackEntry)
    (hneg : entry.isCorrect = false)
    (hprior : ∀ m ∈ L, m.file1Column = entry.file1Column →
      m.file2Column = entry.file2Column → m.isCorrect = false) :
    ∃ m, (L ++ [entry]).find? (fun m =>
        m.file1Column = entry.file1Column ∧ m.file2Column = entry.file2Column) = some m ∧
      m.isCorrect = false := by
  induction L with
  | nil =>
    refine ⟨entry, ?_, hneg⟩
    exact List.find?_cons_of_pos _ (by simp)
  | cons a rest ih =>
    by_cases hp : a.file1Column = entry.file1Column ∧ a.file2Column = entry.file2Column
    · refine ⟨a, ?_, hprior a (List.mem_cons_self a rest) hp.1 hp.2⟩
      exact List.find?_cons_of_pos _ (by simp [hp.1, hp.2])
    · obtain ⟨m, hm, hmc⟩ := ih (fun x hx => hprior x (List.mem_cons_of_mem _ hx))
      refine ⟨m, ?_, hmc⟩
      rw [List.cons_append, List.find?_cons_of_neg _ (by simpa using hp)]
      exact hm

/-- C5: after `AddFeedback` records an entry for (a, b) with
isCorrect = false and a non-empty correct match (so a Corrections row for
the pair exists), `GetLearnedBoost(a, b)` returns exactly −0.3: the
exact historical-judgment scan precedes the Corrections-table branch
(−0.25) and the wrong-suggestion branch (−0.15).  The only precondition is
that no *earlier* log entry for the same pair was marked correct (the
first-match-wins scan would return +0.2 for such an entry); a fresh store
satisfies it vacuously — see the witness. -/
theorem C5_exact_pair_negative (f : FeedbackData) (entry : FeedbackEntry)
    (hneg : entry.isCorrect = false) (_hcm : ¬ entry.correctMatch = "")
    (hprior : ∀ m ∈ f.matchList, m.file1Column = entry.file1Column →
      m.file2Column = entry.file2Column → m.isCorrect = false) :
    getLearnedBoost (addFeedback f entry).1 entry.file1Column entry.file2Column = -(3/10) := by
  have hm : (addFeedback f entry).1.matchList = f.matchList ++ [entry] := rfl
  obtain ⟨m, hfm, hmc⟩ := C5_find_aux f.matchList entry hneg hprior
  rw [getLearnedBoost, hm, hfm]
  simp [hmc]

/-- C5 witness: the scenario run from the fresh feedback store. -/
theorem C5_exact_pair_negative_witness :
    getLearnedBoost (addFeedback emptyFeedbackData
        { file1Column := "a", file2Column := "b", isCorrect := false, correctMatch := "other",
          nameSimilarity := 0, dataSimilarity := 0, patternScore := 0, confidence := 0 }).1
      "a" "b" = -(3/10) := by
  apply C5_exact_pair_negative
  · rfl
  · simp
  · intro m hm
    simp [emptyFeedbackData] at hm

/-! ## Claim C7 -/

/-- C7: for all success, fail ≥ 0, the pattern confidence lies strictly in
(0,1), is strictly increasing in success for fixed fail, strictly
decreasing in fail for fixed success, and equals 0.5 with zero evidence. -/
theorem C7_pattern_confidence (s f : ℕ) :
    0 < calculatePatternConfidence s f ∧ calculatePatternConfidence s f < 1 ∧
    calculatePatternConfidence s f < calculatePatternConfidence (s + 1) f ∧
    calculatePatternConfidence s (f + 1) < calculatePatternConfidence s f ∧
    calculatePatternConfidence 0 0 = 1/2 := by
  have hhalf : calculatePatternConfidence 0 0 = 1/2 := by
    norm_num [calculatePatternConfidence]
  have hfor : ∀ a b : ℕ, a + b ≠ 0 →
      calculatePatternConfidence a b = ((a : ℚ) + 2) / ((a : ℚ) + (b : ℚ) + 4) := by
    intro a b hab
    rw [calculatePatternConfidence, if_neg hab]
    push_cast
    ring_nf
  by_cases h : s + f = 0
  · have hs : s = 0 := by omega
    have hf : f = 0 := by omega
    subst hs; subst hf
    refine ⟨by rw [hhalf]; norm_num, by rw [hhalf]; norm_num, ?_, ?_, hhalf⟩
    · rw [hhalf, hfor 1 0 (by omega)]; norm_num
    · rw [hhalf, hfor 0 1 (by omega)]; norm_num
  · have h1 : (s + 1) + f ≠ 0 := by omega
    have h2 : s + (f + 1) ≠ 0 := by omega
    rw [hfor s f h, hfor _ _ h1, hfor _ _ h2]
    push_cast
    have hS : (0:ℚ) ≤ (s:ℚ) := Nat.cast_nonneg s
    have hF : (0:ℚ) ≤ (f:ℚ) := Nat.cast_nonneg f
    have hd1 : (0:ℚ) < (s:ℚ) + (f:ℚ) + 4 := by linarith
    have hd2 : (0:ℚ) < (s:ℚ) + 1 + (f:ℚ) + 4 := by linarith
    have hd3 : (0:ℚ) < (s:ℚ) + ((f:ℚ) + 1) + 4 := by linarith
    refine ⟨div_pos (by linarith) hd1, ?_, ?_, ?_, hhalf⟩
    · rw [div_lt_one hd1]; linarith
    · rw [div_lt_div_iff₀ hd1 hd2]; nlinarith
    · rw [div_lt_div_iff₀ hd3 hd1]; nlinarith

/-! ## Claim C10 -/

/-- Truncating a column's rows to the shared sample size does not change
the normalized value set it contributes. -/
theorem normalizedSet_take (env : Env) (rows : List (List String)) (c s : ℕ) :
    normalizedSet env (rows.take s) c s = normalizedSet env rows c s := by
  rw [normalizedSet, normalizedSet, List.take_take, min_self]

/-- C10: `CalculateNormalizedMatch` uses one shared sample size equal to
min(200, |rows₁|, |rows₂|) (first conjunct), and its result is unchanged
when both datasets are truncated to that many rows (second conjunct) — so
if the second dataset is smaller, the first column's sample is effectively
truncated to the second's row count, and rows of the larger dataset beyond
that index never contribute to the normalized Jaccard overlap. -/
theorem C10_shared_sample_size (env : Env) (df1 df2 : DataFrame) (c1 c2 : ℕ) :
    nvmSampleSize df1 df2 = min 200 (min df1.rows.length df2.rows.length) ∧
    calculateNormalizedMatch env df1 df2 c1 c2 =
      calculateNormalizedMatch env ⟨df1.headers, df1.rows.take (nvmSampleSize df1 df2)⟩
        ⟨df2.headers, df2.rows.take (nvmSampleSize df1 df2)⟩ c1 c2 := by
  have hs : nvmSampleSize df1 df2 = min 200 (min df1.rows.length df2.rows.length) := by
    rw [nvmSampleSize]; split_ifs <;> omega
  refine ⟨hs, ?_⟩
  have hs2 : nvmSampleSize ⟨df1.headers, df1.rows.take (nvmSampleSize df1 df2)⟩
      ⟨df2.headers, df2.rows.take (nvmSampleSize df1 df2)⟩ = nvmSampleSize df1 df2 := by
    rw [nvmSampleSize]
    dsimp only
    rw [List.length_take, List.length_take]
    have h := hs
    split_ifs <;> omega
  rw [calculateNormalizedMatch, calculateNormalizedMatch, hs2]
  dsimp only
  rw [normalizedSet_take, normalizedSet_take]

/-! ## Claim C8 -/

/-- C8: for every pair of input datasets (and any learner states and
contexts), the list returned by `CalculateEnhancedSimilarity` is a
permutation of exactly the column-pair results with confidence strictly
above 10 (results ≤ 10 are dropped), every returned result has confidence
above 10, and the list is sorted in descending order of confidence. -/
theorem C8_filter_and_sort (env : Env) (w : AdaptiveWeights) (fd : FeedbackData)
    (pl : PatternLearnerState) (cal : List CalibrationBucket) (df1 df2 : DataFrame)
    (ctx1 ctx2 : Option Context) :
    ((calculateEnhancedSimilarity env w fd pl cal df1 df2 ctx1 ctx2).Perm
      ((allPairResults env w fd pl cal df1 df2 ctx1 ctx2).filter
        (fun r => 10 < r.confidence))) ∧
    (∀ r ∈ calculateEnhancedSimilarity env w fd pl cal df1 df2 ctx1 ctx2,
      10 < r.confidence) ∧
    List.Pairwise (fun a b => b.confidence ≤ a.confidence)
      (calculateEnhancedSimilarity env w fd pl cal df1 df2 ctx1 ctx2) := by
  have hperm : (calculateEnhancedSimilarity env w fd pl cal df1 df2 ctx1 ctx2).Perm
      ((allPairResults env w fd pl cal df1 df2 ctx1 ctx2).filter
        (fun r => 10 < r.confidence)) := by
    rw [calculateEnhancedSimilarity]
    exact List.mergeSort_perm _ _
  refine ⟨hperm, ?_, ?_⟩
  · intro r hr
    have hmem := (hperm.mem_iff).1 hr
    have hf := List.of_mem_filter hmem
    simpa using hf
  · rw [calculateEnhancedSimilarity]
    have hsorted := @List.sorted_mergeSort SimilarityResult
      (fun a b : SimilarityResult => decide (b.confidence ≤ a.confidence))
      (fun a b c hab hbc => by
        simp only [decide_eq_true_eq] at *
        exact le_trans hbc hab)
      (fun a b => by rcases le_total a.confidence b.confidence with h | h <;> simp [h])
      ((allPairResults env w fd pl cal df1 df2 ctx1 ctx2).filter
        (fun r => 10 < r.confidence))
    exact hsorted.imp (fun h => by simpa using h)

end ColMatch
